import Mathlib

/-!
Shallow embedding of `src/parser.py` (Markwaydown), a line-driven
markdown-to-HTML converter, together with proofs about its behavior.

Python's partial operations are modelled with `Option`: a result of
`none` marks a point where the Python code would raise an uncaught
exception (an `IndexError` from string indexing).  The `KeyError`
raised by a missing transition-table entry is caught by the source
itself (`try`/`except KeyError`), so it is modelled as the explicit
fallback branch, not as `none`.
-/

namespace Markwaydown

/-- States of the parser: the `State` enum of parser.py. -/
inductive State
  | INITIAL
  | DEFAULT
  | HEADING
  | PARAGRAPH
  | UNORDERED_LIST
  | ORDERED_LIST
deriving DecidableEq

/-- Line-kind signals: the `Transition` enum of parser.py.
`NONE` is declared in the source but never produced. -/
inductive Transition
  | POUND_SIGN
  | ASTERISK
  | OTHER_CHARACTER
  | LIST_NUMBER
  | EMPTY_LINE
  | NONE
deriving DecidableEq

/-- The emission actions: one constructor per `create_*` method of the
`Parser` class in parser.py. -/
inductive Action
  | create_heading
  | create_paragraph_start
  | create_paragraph_end
  | create_unordered_list_start
  | create_unordered_list_end
  | create_list_item_start
  | create_list_item_end
  | create_ordered_list_start
  | create_ordered_list_end
deriving DecidableEq

/-- Whitespace characters recognized by Python `str.split()` (restricted
to the ASCII whitespace characters; Unicode space characters are not
modelled). -/
def pyIsSpace (c : Char) : Bool :=
  c = ' ' || c = '\t' || c = '\n' || c = '\r' || c = '\x0b' || c = '\x0c'

/-- Helper for `tokenize`: walks the characters of the line, collecting
the current word in `acc` (reversed) and emitting it when a whitespace
run or the end of the line is reached.  Empty words are never emitted,
matching Python `str.split()` with no separator argument. -/
def splitWords : List Char → List Char → List String
  | [], acc => if acc = [] then [] else [String.mk acc.reverse]
  | c :: cs, acc =>
    if pyIsSpace c then
      if acc = [] then splitWords cs []
      else String.mk acc.reverse :: splitWords cs []
    else splitWords cs (c :: acc)

/-- Models `line.split()` in `Parser.parse_line`: split the line on runs
of whitespace, discarding empty tokens. -/
def tokenize (line : String) : List String :=
  splitWords line.data []

/-- Models Python `" ".join(tokens)`. -/
def joinSpace : List String → String
  | [] => ""
  | [t] => t
  | t :: t2 :: ts => t ++ " " ++ joinSpace (t2 :: ts)

/-- Concatenation of a list of strings (used to state how the driver
assembles per-action outputs). -/
def joinAll : List String → String
  | [] => ""
  | t :: ts => t ++ joinAll ts

/-- Classification of the first token (characters `chars`) given whether
a second token exists (`hasMore`, i.e. `len(self.tokens) > 1`).
Models lines 39-46 of parser.py:
`tokens[0][0] == "#"`, `tokens[0][0] == "*"`,
`tokens[0][0].isdigit() and len(tokens) > 1 and tokens[0][1] == "."`.
`none` models the `IndexError` raised by `tokens[0][1]` when the first
token is a single character (the empty-chars case cannot arise from
`tokenize`, whose tokens are non-empty). -/
def classifyToken : List Char → Bool → Option Transition
  | [], _ => none
  | c0 :: cs, hasMore =>
    if c0 = '#' then some Transition.POUND_SIGN
    else if c0 = '*' then some Transition.ASTERISK
    else if c0.isDigit && hasMore then
      match cs with
      | [] => none
      | c1 :: _ =>
        if c1 = '.' then some Transition.LIST_NUMBER
        else some Transition.OTHER_CHARACTER
    else some Transition.OTHER_CHARACTER

/-- Models the classification block at the top of `Parser.transition`
(lines 37-46 of parser.py). -/
def classify (tokens : List String) : Option Transition :=
  match tokens with
  | [] => some Transition.EMPTY_LINE
  | t0 :: rest => classifyToken t0.data (!rest.isEmpty)

/-- Models the `pound_sign_count` loop of `Parser.create_heading`:
count leading `#` characters of the first token, stopping at 6. -/
def pound_sign_count : List Char → Nat → Nat
  | [], n => n
  | c :: cs, n => if c = '#' ∧ n < 6 then pound_sign_count cs (n + 1) else n

/-- Number of consecutive leading `#` characters (used to state that the
code computes `min(consecutive_leading_#, 6)`). -/
def leadingPoundSigns : List Char → Nat
  | [] => 0
  | c :: cs => if c = '#' then leadingPoundSigns cs + 1 else 0

/-- The string each `create_*` method appends to `self.output`, as a
function of the current token list.  `none` models the `IndexError`
raised by `self.tokens[0]` in `create_heading` when the token list is
empty (unreachable through the transition table).  `tokens[1:]` in
`create_list_item_start` is total in Python, hence `List.drop 1`. -/
def applyAction : Action → List String → Option String
  | Action.create_heading, [] => none
  | Action.create_heading, t0 :: rest =>
    some ("<h" ++ toString (pound_sign_count t0.data 0) ++ ">\n"
      ++ joinSpace (String.mk (t0.data.drop (pound_sign_count t0.data 0)) :: rest)
      ++ "\n"
      ++ "</h" ++ toString (pound_sign_count t0.data 0) ++ ">")
  | Action.create_paragraph_start, tokens => some ("<p>\n" ++ joinSpace tokens)
  | Action.create_paragraph_end, _ => some "</p>"
  | Action.create_unordered_list_start, _ => some "<ul>"
  | Action.create_unordered_list_end, _ => some "</ul>"
  | Action.create_list_item_start, tokens => some ("<li>\n" ++ joinSpace (tokens.drop 1))
  | Action.create_list_item_end, _ => some "</li>"
  | Action.create_ordered_list_start, _ => some "<ol>"
  | Action.create_ordered_list_end, _ => some "</ol>"

/-- Models the action loop of `Parser.transition` (lines 100-103):
each action appends its output, then the driver appends one newline. -/
def runActions : List Action → List String → Option String
  | [], _ => some ""
  | a :: as, tokens =>
    match applyAction a tokens with
    | none => none
    | some out =>
      match runActions as tokens with
      | none => none
      | some rest => some (out ++ "\n" ++ rest)

/-- The transition table `transitions` of `Parser.transition`
(lines 48-91 of parser.py).  `none` in the action component models the
Python `None` entries; absence of an entry models the `KeyError` path. -/
def transitions : State → Transition → Option (State × Option (List Action))
  | State.INITIAL, Transition.POUND_SIGN =>
    some (State.DEFAULT, some [Action.create_heading])
  | State.INITIAL, Transition.ASTERISK => some (State.UNORDERED_LIST, none)
  | State.INITIAL, Transition.OTHER_CHARACTER => some (State.PARAGRAPH, none)
  | State.INITIAL, Transition.LIST_NUMBER =>
    some (State.ORDERED_LIST,
      some [Action.create_ordered_list_start, Action.create_list_item_start])
  | State.DEFAULT, Transition.POUND_SIGN =>
    some (State.DEFAULT, some [Action.create_heading])
  | State.DEFAULT, Transition.ASTERISK =>
    some (State.UNORDERED_LIST, some [Action.create_unordered_list_start])
  | State.DEFAULT, Transition.OTHER_CHARACTER =>
    some (State.PARAGRAPH, some [Action.create_paragraph_start])
  | State.DEFAULT, Transition.LIST_NUMBER =>
    some (State.ORDERED_LIST,
      some [Action.create_ordered_list_start, Action.create_list_item_start])
  | State.PARAGRAPH, Transition.EMPTY_LINE =>
    some (State.DEFAULT, some [Action.create_paragraph_end])
  | State.PARAGRAPH, Transition.ASTERISK =>
    some (State.UNORDERED_LIST,
      some [Action.create_paragraph_end, Action.create_unordered_list_start,
        Action.create_list_item_start])
  | State.PARAGRAPH, Transition.LIST_NUMBER =>
    some (State.ORDERED_LIST,
      some [Action.create_paragraph_end, Action.create_ordered_list_start,
        Action.create_list_item_start])
  | State.PARAGRAPH, Transition.POUND_SIGN =>
    some (State.DEFAULT, some [Action.create_paragraph_end, Action.create_heading])
  | State.UNORDERED_LIST, Transition.EMPTY_LINE =>
    some (State.DEFAULT,
      some [Action.create_list_item_end, Action.create_unordered_list_end])
  | State.UNORDERED_LIST, Transition.ASTERISK =>
    some (State.UNORDERED_LIST,
      some [Action.create_list_item_end, Action.create_list_item_start])
  | State.UNORDERED_LIST, Transition.LIST_NUMBER =>
    some (State.ORDERED_LIST,
      some [Action.create_list_item_end, Action.create_unordered_list_end,
        Action.create_ordered_list_start, Action.create_list_item_start])
  | State.ORDERED_LIST, Transition.LIST_NUMBER =>
    some (State.ORDERED_LIST,
      some [Action.create_list_item_end, Action.create_list_item_start])
  | State.ORDERED_LIST, Transition.EMPTY_LINE =>
    some (State.DEFAULT,
      some [Action.create_list_item_end, Action.create_ordered_list_end])
  | State.ORDERED_LIST, Transition.ASTERISK =>
    some (State.UNORDERED_LIST,
      some [Action.create_list_item_end, Action.create_ordered_list_end,
        Action.create_unordered_list_start, Action.create_list_item_start])
  | _, _ => none

/-- Models `Parser.transition` for one line, given the current state and
the token list: classify, look up the table (a miss is the caught
`KeyError`: output is the tokens space-joined plus a newline and the
state is unchanged), and on a hit update the state and either run the
action list (appending one newline after each action) or, when the
entry's action value is falsy (Python `None` or an empty list), emit the
space-joined tokens plus a newline.  Returns the new state and the
line's output; `none` models an uncaught exception. -/
def transition (s : State) (tokens : List String) : Option (State × String) :=
  match classify tokens with
  | none => none
  | some sig =>
    match transitions s sig with
    | none => some (s, joinSpace tokens ++ "\n")
    | some (s2, none) => some (s2, joinSpace tokens ++ "\n")
    | some (s2, some acts) =>
      if acts.isEmpty then some (s2, joinSpace tokens ++ "\n")
      else
        match runActions acts tokens with
        | none => none
        | some out => some (s2, out)

/-- Models `Parser.parse_line`: reset the output buffer, tokenize the
line, run the transition.  Returns the updated state together with the
line's output. -/
def parse_line (s : State) (line : String) : Option (State × String) :=
  transition s (tokenize line)

/-- Models the loop of `parse_to_html`: feed the lines to the parser in
order and concatenate the per-line outputs.  `none` models an uncaught
exception on some line. -/
def parse_lines : State → List String → Option (State × String)
  | s, [] => some (s, "")
  | s, line :: rest =>
    match parse_line s line with
    | none => none
    | some (s2, out) =>
      match parse_lines s2 rest with
      | none => none
      | some (s3, outRest) => some (s3, out ++ outRest)

/-! ### Helper lemmas -/

/-- The `pound_sign_count` loop computes `min (n + leading #s) 6` for any
start value `n ≤ 6`. -/
theorem pound_sign_count_eq_min (l : List Char) : ∀ n : Nat, n ≤ 6 →
    pound_sign_count l n = min (n + leadingPoundSigns l) 6 := by
  induction l with
  | nil =>
    intro n hn
    simp only [pound_sign_count, leadingPoundSigns]
    omega
  | cons c cs ih =>
    intro n hn
    by_cases h : c = '#' ∧ n < 6
    · simp only [pound_sign_count, leadingPoundSigns, if_pos h, if_pos h.1,
        ih (n + 1) (by omega)]
      omega
    · simp only [pound_sign_count, leadingPoundSigns, if_neg h]
      by_cases hc : c = '#'
      · rw [if_pos hc]
        have hn6 : ¬ n < 6 := fun hlt => h ⟨hc, hlt⟩
        omega
      · rw [if_neg hc]
        omega

/-- On a table miss (`KeyError` path), the output is the tokens joined
by spaces plus a newline and the state is unchanged. -/
theorem transition_table_miss (s : State) (tokens : List String)
    (sig : Transition) (hc : classify tokens = some sig)
    (ht : transitions s sig = none) :
    transition s tokens = some (s, joinSpace tokens ++ "\n") := by
  simp [transition, hc, ht]

/-- Any successful `transition` either leaves the state unchanged or
moves it to the target of some transition-table entry. -/
theorem transition_some_cases {s : State} {tokens : List String}
    {s2 : State} {out : String}
    (h : transition s tokens = some (s2, out)) :
    s2 = s ∨ ∃ sig acts, classify tokens = some sig ∧
      transitions s sig = some (s2, acts) := by
  unfold transition at h
  split at h
  · simp at h
  · rename_i sig hc
    split at h
    · rename_i ht
      simp only [Option.some.injEq, Prod.mk.injEq] at h
      exact Or.inl h.1.symm
    · rename_i st ht
      simp only [Option.some.injEq, Prod.mk.injEq] at h
      exact Or.inr ⟨sig, none, hc, h.1 ▸ ht⟩
    · rename_i st acts ht
      split at h
      · simp only [Option.some.injEq, Prod.mk.injEq] at h
        exact Or.inr ⟨sig, some acts, hc, h.1 ▸ ht⟩
      · split at h
        · simp at h
        · rename_i o hr
          simp only [Option.some.injEq, Prod.mk.injEq] at h
          exact Or.inr ⟨sig, some acts, hc, h.1 ▸ ht⟩

/-- Every target state in the transition table is neither `HEADING` nor
`INITIAL`. -/
theorem transitions_target (s : State) (sig : Transition) (s2 : State)
    (acts : Option (List Action)) (h : transitions s sig = some (s2, acts)) :
    s2 ≠ State.HEADING ∧ s2 ≠ State.INITIAL := by
  cases s <;> cases sig <;>
    simp only [transitions, Option.some.injEq, Prod.mk.injEq,
      reduceCtorEq] at h <;>
    first
    | exact absurd h not_false
    | · obtain ⟨rfl, rfl⟩ := h
        exact ⟨by simp, by simp⟩

/-- A single successful step never produces the `HEADING` state (when
started outside it) and never re-enters `INITIAL`. -/
theorem transition_step_invariant {s : State} {tokens : List String}
    {s2 : State} {out : String}
    (h : transition s tokens = some (s2, out)) :
    (s ≠ State.HEADING → s2 ≠ State.HEADING) ∧
    (s ≠ State.INITIAL → s2 ≠ State.INITIAL) := by
  rcases transition_some_cases h with rfl | ⟨sig, acts, _, ht⟩
  · exact ⟨fun hs => hs, fun hs => hs⟩
  · have := transitions_target _ _ _ _ ht
    exact ⟨fun _ => this.1, fun _ => this.2⟩

/-- Invariant propagation for `parse_lines`: a run that starts outside
`HEADING` ends outside `HEADING`, and one that starts outside `INITIAL`
ends outside `INITIAL`. -/
theorem parse_lines_invariant (lines : List String) : ∀ (s s2 : State)
    (out : String), parse_lines s lines = some (s2, out) →
    (s ≠ State.HEADING → s2 ≠ State.HEADING) ∧
    (s ≠ State.INITIAL → s2 ≠ State.INITIAL) := by
  induction lines with
  | nil =>
    intro s s2 out h
    simp only [parse_lines, Option.some.injEq, Prod.mk.injEq] at h
    exact ⟨fun hs => h.1 ▸ hs, fun hs => h.1 ▸ hs⟩
  | cons line rest ih =>
    intro s s2 out h
    unfold parse_lines at h
    split at h
    · simp at h
    · rename_i s1 out1 hp
      split at h
      · simp at h
      · rename_i s3 out2 hr
        simp only [Option.some.injEq, Prod.mk.injEq] at h
        have hstep := transition_step_invariant hp
        have hrest := ih s1 s3 out2 hr
        exact ⟨fun hs => h.1 ▸ hrest.1 (hstep.1 hs),
          fun hs => h.1 ▸ hrest.2 (hstep.2 hs)⟩

/-! ### Claim theorems -/

/-- Claim C1: the spec asserts that every line in every state is
processed without raising an exception, but the code contradicts it.
On the line "1 item" the first token is the single character "1", so
`tokens[0][0].isdigit()` holds and `len(tokens) > 1` holds, and the
classifier then evaluates `tokens[0][1]`, which raises `IndexError`
(modelled by `none`) in every parser state. -/
theorem claim_C1_crash_on_single_char_digit_token :
    ∀ s : State, parse_line s "1 item" = none := fun _ => rfl

/-- Witness for claim C1: the crash on "1 item" from the start state. -/
theorem claim_C1_crash_on_single_char_digit_token_witness :
    parse_line State.INITIAL "1 item" = none :=
  claim_C1_crash_on_single_char_digit_token State.INITIAL

/-- Claim C2: the classifier's priority order holds on its examples —
"1. Item" classifies as `LIST_NUMBER` (OrderedMarker), "10. Item" as
`OTHER_CHARACTER` (OtherText) — and tokens after the first never affect
classification; but the final "else OtherText" clause is not total:
on "2 x" the code raises `IndexError` (modelled by `none`) instead of
classifying the line as OtherText. -/
theorem claim_C2_classifier_priority :
    classify (tokenize "1. Item") = some Transition.LIST_NUMBER
    ∧ classify (tokenize "10. Item") = some Transition.OTHER_CHARACTER
    ∧ (∀ (t0 : String) (rest rest2 : List String), rest ≠ [] → rest2 ≠ [] →
        classify (t0 :: rest) = classify (t0 :: rest2))
    ∧ classify (tokenize "2 x") = none := by
  refine ⟨rfl, rfl, ?_, rfl⟩
  intro t0 rest rest2 h1 h2
  cases rest with
  | nil => exact absurd rfl h1
  | cons a as =>
    cases rest2 with
    | nil => exact absurd rfl h2
    | cons b bs => rfl

/-- Witness for claim C2: an instantiation of the third conjunct on
concrete token lists. -/
theorem claim_C2_classifier_priority_witness :
    classify ["a", "x", "y"] = classify ["a", "z"] :=
  claim_C2_classifier_priority.2.2.1 "a" ["x", "y"] ["z"] (by simp) (by simp)

/-- Claim C4: the three-line document "Hello world", "more text", ""
fed from `INITIAL` produces per-line outputs "Hello world\n" (state
becomes `PARAGRAPH`, no paragraph tag), "more text\n" (state stays
`PARAGRAPH`), "</p>\n" (state becomes `DEFAULT`), whose concatenation
is "Hello world\nmore text\n</p>\n". -/
theorem claim_C4_paragraph_scenario :
    parse_line State.INITIAL "Hello world" =
      some (State.PARAGRAPH, "Hello world\n")
    ∧ parse_line State.PARAGRAPH "more text" =
      some (State.PARAGRAPH, "more text\n")
    ∧ parse_line State.PARAGRAPH "" = some (State.DEFAULT, "</p>\n")
    ∧ parse_lines State.INITIAL ["Hello world", "more text", ""] =
      some (State.DEFAULT, "Hello world\nmore text\n</p>\n") :=
  ⟨rfl, rfl, rfl, rfl⟩

/-- Claim C5: the heading action emits level
`min(consecutive leading #, 6)` and keeps the characters after the
sixth `#` in the heading text; concretely "## Title" from `DEFAULT`
yields "<h2>\n Title\n</h2>\n" and "###Title" yields
"<h3>\nTitle\n</h3>\n". -/
theorem claim_C5_heading_level :
    (∀ (t0 : String) (rest : List String),
      applyAction Action.create_heading (t0 :: rest) =
        some ("<h" ++ toString (min (leadingPoundSigns t0.data) 6) ++ ">\n"
          ++ joinSpace
            (String.mk (t0.data.drop (min (leadingPoundSigns t0.data) 6)) :: rest)
          ++ "\n"
          ++ "</h" ++ toString (min (leadingPoundSigns t0.data) 6) ++ ">"))
    ∧ parse_line State.DEFAULT "## Title" =
      some (State.DEFAULT, "<h2>\n Title\n</h2>\n")
    ∧ parse_line State.DEFAULT "###Title" =
      some (State.DEFAULT, "<h3>\nTitle\n</h3>\n") := by
  refine ⟨?_, rfl, rfl⟩
  intro t0 rest
  have h : pound_sign_count t0.data 0 = min (leadingPoundSigns t0.data) 6 := by
    simpa using pound_sign_count_eq_min t0.data 0 (by omega)
  simp only [applyAction, h]

/-- Witness for claim C5: the heading action on the tokens of
"## Title". -/
theorem claim_C5_heading_level_witness :
    applyAction Action.create_heading ["##", "Title"] =
      some "<h2>\n Title\n</h2>" :=
  claim_C5_heading_level.1 "##" ["Title"]

/-- Claim C6: for every (state, signal) pair with no transition-table
entry, the line's output is the tokens joined by single spaces plus one
newline and the state is unchanged. -/
theorem claim_C6_fallback_continuation (s : State) (tokens : List String)
    (sig : Transition) (hc : classify tokens = some sig)
    (ht : transitions s sig = none) :
    transition s tokens = some (s, joinSpace tokens ++ "\n") :=
  transition_table_miss s tokens sig hc ht

/-- Witness for claim C6: the pair (`PARAGRAPH`, `OTHER_CHARACTER`) has
no table entry, so the line "more text" is echoed with the state kept. -/
theorem claim_C6_fallback_continuation_witness :
    transition State.PARAGRAPH ["more", "text"] =
      some (State.PARAGRAPH, joinSpace ["more", "text"] ++ "\n") :=
  claim_C6_fallback_continuation State.PARAGRAPH ["more", "text"]
    Transition.OTHER_CHARACTER rfl rfl

/-- Claim C7: the open-list-item action appends `<li>`, a newline, and
the tokens except the first joined by spaces; with a single token, the
whole first token (marker and attached text) is dropped and the item
content is empty. -/
theorem claim_C7_open_list_item :
    (∀ tokens : List String,
      applyAction Action.create_list_item_start tokens =
        some ("<li>" ++ "\n" ++ joinSpace tokens.tail))
    ∧ applyAction Action.create_list_item_start ["*Item"] = some "<li>\n"
    ∧ applyAction Action.create_list_item_start ["1.", "a", "b"] =
      some "<li>\na b" := by
  refine ⟨?_, rfl, rfl⟩
  intro tokens
  cases tokens <;> rfl

/-- Witness for claim C7: the open-list-item action on a marker token
followed by one word. -/
theorem claim_C7_open_list_item_witness :
    applyAction Action.create_list_item_start ["*", "a"] = some "<li>\na" :=
  claim_C7_open_list_item.1 ["*", "a"]

/-- Claim C8: from `DEFAULT`, a list-bullet line runs only the
open-unordered-list action: the whole output is "<ul>\n", the line's
text is not emitted, and the state becomes `UNORDERED_LIST`. -/
theorem claim_C8_default_list_bullet (t0 : String) (rest : List String)
    (cs : List Char) (h : t0.data = '*' :: cs) :
    transition State.DEFAULT (t0 :: rest) =
      some (State.UNORDERED_LIST, "<ul>\n") := by
  have hc : classify (t0 :: rest) = some Transition.ASTERISK := by
    simp [classify, h, classifyToken]
  simp [transition, hc, transitions, runActions, applyAction]

/-- Witness for claim C8: the line "* item" from `DEFAULT`. -/
theorem claim_C8_default_list_bullet_witness :
    transition State.DEFAULT ["*", "item"] =
      some (State.UNORDERED_LIST, "<ul>\n") :=
  claim_C8_default_list_bullet "*" ["item"] [] rfl

/-- Claim C10: from `INITIAL`, a list-bullet line takes the table entry
(`INITIAL`, `ASTERISK`) whose action value is `None`, so the output is
the full token sequence joined by spaces — the `*` marker included —
plus one newline, and the state becomes `UNORDERED_LIST`. -/
theorem claim_C10_initial_list_bullet_echo (t0 : String)
    (rest : List String) (cs : List Char) (h : t0.data = '*' :: cs) :
    transition State.INITIAL (t0 :: rest) =
      some (State.UNORDERED_LIST, joinSpace (t0 :: rest) ++ "\n") := by
  have hc : classify (t0 :: rest) = some Transition.ASTERISK := by
    simp [classify, h, classifyToken]
  simp [transition, hc, transitions]

/-- Witness for claim C10: the line "* item" from `INITIAL` echoes the
marker token. -/
theorem claim_C10_initial_list_bullet_echo_witness :
    transition State.INITIAL ["*", "item"] =
      some (State.UNORDERED_LIST, joinSpace ["*", "item"] ++ "\n") :=
  claim_C10_initial_list_bullet_echo "*" ["item"] [] rfl

/-- Claim C3: when every action of a matched transition's action list
succeeds with some output (`mapM`), the driver's loop output is exactly
the per-action outputs each followed by one driver-inserted newline,
concatenated in order — so a list of k actions receives exactly k driver
newlines (the k-th doubling as the newline after the whole list) on top
of whatever newlines the action outputs embed — and a table hit with a
non-empty action list routes `transition` through that loop. -/
theorem claim_C3_driver_newlines :
    (∀ (acts : List Action) (tokens : List String) (outs : List String),
      List.mapM (fun a => applyAction a tokens) acts = some outs →
      runActions acts tokens = some (joinAll (outs.map (fun o => o ++ "\n")))
      ∧ (joinAll (outs.map (fun o => o ++ "\n"))).data.count '\n' =
          (outs.map (fun o => o.data.count '\n')).sum + acts.length)
    ∧ (∀ (s : State) (tokens : List String) (sig : Transition) (s2 : State)
        (acts : List Action),
        classify tokens = some sig →
        transitions s sig = some (s2, some acts) → acts ≠ [] →
        transition s tokens =
          (runActions acts tokens).map (fun out => (s2, out))) := by
  have hjc : ∀ a b : String,
      (a ++ b).data.count '\n' = a.data.count '\n' + b.data.count '\n' := by
    intro a b
    rw [String.data_append, List.count_append]
  constructor
  · intro acts
    induction acts with
    | nil =>
      intro tokens outs h
      simp only [List.mapM_nil, pure, Option.some.injEq] at h
      subst h
      exact ⟨rfl, rfl⟩
    | cons a as ih =>
      intro tokens outs h
      rw [List.mapM_cons] at h
      cases hfa : applyAction a tokens with
      | none => rw [hfa] at h; simp at h
      | some o =>
        rw [hfa] at h
        cases hfs : List.mapM (fun a => applyAction a tokens) as with
        | none => rw [hfs] at h; simp at h
        | some os =>
          rw [hfs] at h
          simp only [Option.some_bind, Option.bind_eq_bind, pure,
            Option.some.injEq] at h
          subst h
          obtain ⟨ih1, ih2⟩ := ih tokens os hfs
          constructor
          · simp only [runActions, hfa, ih1, List.map_cons, joinAll]
          · simp only [List.map_cons, joinAll, List.sum_cons,
              List.length_cons, hjc]
            have h1 : List.count '\n' ['\n'] = 1 := rfl
            omega
  · intro s tokens sig s2 acts hc ht hne
    have he : acts.isEmpty = false := by
      cases acts with
      | nil => exact absurd rfl hne
      | cons a as => rfl
    simp only [transition, hc, ht, he, Bool.false_eq_true, if_false]
    cases hr : runActions acts tokens with
    | none => rfl
    | some o => rfl

/-- Witness for claim C3: closing a paragraph and opening an unordered
list (the `PARAGRAPH` × `ASTERISK` prefix) produces each tag followed by
one driver newline. -/
theorem claim_C3_driver_newlines_witness :
    runActions
      [Action.create_paragraph_end, Action.create_unordered_list_start] [] =
      some "</p>\n<ul>\n" :=
  (claim_C3_driver_newlines.1
    [Action.create_paragraph_end, Action.create_unordered_list_start] []
    ["</p>", "<ul>"] rfl).1

/-- Claim C9: across any run from `INITIAL` the state is never
`HEADING` after a call; on a table miss the state is unchanged; and a
run that starts outside `INITIAL` never returns to `INITIAL`. -/
theorem claim_C9_state_invariants :
    (∀ (lines : List String) (s : State) (out : String),
      parse_lines State.INITIAL lines = some (s, out) → s ≠ State.HEADING)
    ∧ (∀ (s : State) (tokens : List String) (sig : Transition),
        classify tokens = some sig → transitions s sig = none →
        (transition s tokens).map Prod.fst = some s)
    ∧ (∀ (s : State) (lines : List String) (s2 : State) (out : String),
        s ≠ State.INITIAL → parse_lines s lines = some (s2, out) →
        s2 ≠ State.INITIAL) := by
  refine ⟨?_, ?_, ?_⟩
  · intro lines s out h
    exact (parse_lines_invariant lines State.INITIAL s out h).1 (by decide)
  · intro s tokens sig hc ht
    rw [transition_table_miss s tokens sig hc ht]
    rfl
  · intro s lines s2 out hs h
    exact (parse_lines_invariant lines s s2 out h).2 hs

/-- Witness for claim C9: instantiations of all three conjuncts on
concrete runs. -/
theorem claim_C9_state_invariants_witness :
    State.PARAGRAPH ≠ State.HEADING
    ∧ (transition State.PARAGRAPH ["more", "text"]).map Prod.fst =
      some State.PARAGRAPH
    ∧ State.PARAGRAPH ≠ State.INITIAL :=
  ⟨claim_C9_state_invariants.1 ["Hello"] State.PARAGRAPH "Hello\n" rfl,
   claim_C9_state_invariants.2.1 State.PARAGRAPH ["more", "text"]
     Transition.OTHER_CHARACTER rfl rfl,
   claim_C9_state_invariants.2.2 State.DEFAULT ["text"] State.PARAGRAPH
     "<p>\ntext\n" (by decide) rfl⟩

end Markwaydown
